import Mathlib

/-!
# Garments storefront — product data-access and filtering layer

A shallow embedding of the product repository (`useProducts`), the
client-side subcategory filter engine (`ProductsPage`), the view-model
derivation helpers (`ProductDetailPage`, `BestSelling`), and the category
mapping table, together with theorems settling the specification claims.

TypeScript `number` is modelled as `ℚ` (all values appearing in the code
are exact decimals), `string | null` as `Option String`, and arrays as
`List`.  Fallible backend calls are modelled by passing the backend's
outcome as an `Except String _` argument; a `catch` block becomes a match
on the `error` constructor.
-/

namespace Garments

/-- `product_images` row, joined into a product (useProducts `images`). -/
structure Image where
  id : String
  image_url : String
  alt_text : Option String
  is_primary : Bool
  sort_order : Int
deriving DecidableEq

/-- `product_variants` row, joined into a product (useProducts `variants`). -/
structure Variant where
  id : String
  size : Option String
  color_name : Option String
  color_code : Option String
  stock_quantity : Int
  price_adjustment : ℚ
  is_active : Bool
deriving DecidableEq

/-- Joined `categories(name, slug)` sub-record. -/
structure Category where
  name : String
  slug : String
deriving DecidableEq

/-- The `Product` interface of `useProducts`. -/
structure Product where
  id : String
  name : String
  description : Option String
  category_id : Option String
  subcategory : Option String
  price : ℚ
  original_price : Option ℚ
  sku : Option String
  slug : String
  is_active : Bool
  is_hot_sale : Bool
  rating : ℚ
  review_count : Int
  created_at : String
  updated_at : String
  category : Option Category
  images : List Image
  variants : List Variant
deriving DecidableEq

/-! ## JavaScript string primitives -/

/-- JS `String.prototype.includes`: `needle` occurs contiguously in `hay`
(the empty needle always occurs). -/
def jsIncludes (hay needle : String) : Bool :=
  (List.range (hay.toList.length + 1)).any fun i =>
    needle.toList.isPrefixOf (hay.toList.drop i)

/-- JS `String.prototype.toLowerCase` for the ASCII range, character by
character over the string's character list. -/
def jsToLower (s : String) : String := ⟨s.data.map Char.toLower⟩

/-- JS string truthiness: non-null and non-empty. -/
def strTruthy : Option String → Bool
  | some s => !(s = "")
  | none => false

/-! ## Client-side filter engine (ProductsPage) -/

/-- Predicate of the ProductsPage `useEffect` subcategory filter:
`product.name.toLowerCase().includes(tok.toLowerCase()) ||
 product.description?.toLowerCase().includes(tok.toLowerCase())`.
The optional chain makes a null description contribute `undefined`
(falsy), so only the name can match then. -/
def urlSubcatPred (tok : String) (p : Product) : Bool :=
  jsIncludes (jsToLower p.name) (jsToLower tok) ||
    (match p.description with
     | some d => jsIncludes (jsToLower d) (jsToLower tok)
     | none => false)

/-- The ProductsPage `useEffect` reacting to the `subcategory` query
parameter: `if (subcategory && subcategory !== 'all')` filter by
`urlSubcatPred`, else pass `products` through.  `subcategory` is
`string | null`; the guard is falsy for `null` and for the empty string,
and the comparison with `'all'` is case-sensitive. -/
def filterByUrlSubcategory (subcategory : Option String) (products : List Product) :
    List Product :=
  match subcategory with
  | none => products
  | some s => if s = "" ∨ s = "all" then products else products.filter (urlSubcatPred s)

/-- Predicate of `handleFilterClick`'s filter, which reads
`product.description.toLowerCase()` WITHOUT the optional chain: when the
name does not match (JS `||` short-circuit) and the description is null,
evaluation throws a TypeError, modelled as `none`. -/
def clickPred (tok : String) (p : Product) : Option Bool :=
  if jsIncludes (jsToLower p.name) (jsToLower tok) then some true
  else
    match p.description with
    | none => none
    | some d => some (jsIncludes (jsToLower d) (jsToLower tok))

/-- `Array.prototype.filter` evaluating a fallible predicate left to
right, propagating the first thrown error. -/
def filterClickAux (tok : String) : List Product → Option (List Product)
  | [] => some []
  | p :: ps => do
      let b ← clickPred tok p
      let rest ← filterClickAux tok ps
      pure (if b then p :: rest else rest)

/-- `handleFilterClick`'s state update for `filteredProducts`:
`if (filter === 'All' || filter === 'all')` pass `products` through,
else filter by name/description substring match; `none` models the
filter callback throwing. -/
def filterClick (filter : String) (products : List Product) : Option (List Product) :=
  if filter = "All" ∨ filter = "all" then some products
  else filterClickAux filter products

/-! ## Category mapping table (ProductsPage) -/

/-- The `categoryMap` object literal of `getCategorySlug`. -/
def categoryMap : List (String × String) :=
  [("men", "mens-t-shirts"),
   ("men-tshirts", "mens-t-shirts"),
   ("men-bottomwear", "mens-bottomwear"),
   ("women", "womens-leggings"),
   ("women-leggings", "womens-leggings"),
   ("shapewear", "saree-shapewear"),
   ("nightwear", "night-wear")]

/-- The property names every plain object literal inherits from
`Object.prototype` (ECMAScript core members, the Annex B legacy
accessor helpers, and the `__proto__` accessor).  Each of them holds a
function or object — a truthy, non-string value. -/
def objectProtoKeys : List String :=
  ["constructor", "hasOwnProperty", "isPrototypeOf", "propertyIsEnumerable",
   "toLocaleString", "toString", "valueOf", "__proto__",
   "__defineGetter__", "__defineSetter__", "__lookupGetter__", "__lookupSetter__"]

/-- Result of a JS property read `obj[key]` on a string-valued object
literal: an own key's string value, a truthy member inherited from
`Object.prototype`, or `undefined`. -/
inductive JsLookup where
  | ownString (v : String)
  | inherited
  | absent
deriving DecidableEq

/-- JS member access on an object literal: own properties shadow the
prototype; a missing own key falls back to the `Object.prototype`
member of that name before yielding `undefined`. -/
def jsObjectGet (obj : List (String × String)) (key : String) : JsLookup :=
  match obj.lookup key with
  | some v => .ownString v
  | none => if key ∈ objectProtoKeys then .inherited else .absent

/-- What `getCategorySlug` can return: a string, or — when the lookup
hit an inherited `Object.prototype` member — that member itself (a
function/object, not a string), since it is truthy and `||` does not
fall back. -/
inductive SlugResult where
  | str (s : String)
  | protoMember (key : String)
deriving DecidableEq

/-- `getCategorySlug`: `categoryMap[category] || category`.  An own key
yields its slug (empty string falsy in principle, never in this table);
a key inherited from `Object.prototype` (e.g. "toString") yields that
truthy member, so the `|| category` fallback does NOT fire; only a
fully absent key returns the input unchanged. -/
def getCategorySlug (category : String) : SlugResult :=
  match jsObjectGet categoryMap category with
  | .ownString v => if v = "" then .str category else .str v
  | .inherited => .protoMember category
  | .absent => .str category

/-! ## JS `parseInt` (BestSelling card ids) -/

/-- Value of a character as a digit under `radix`, if valid. -/
def digitVal (radix : Nat) (c : Char) : Option Nat :=
  let v : Option Nat :=
    if '0' ≤ c ∧ c ≤ '9' then some (c.toNat - '0'.toNat)
    else if 'a' ≤ c ∧ c ≤ 'z' then some (c.toNat - 'a'.toNat + 10)
    else if 'A' ≤ c ∧ c ≤ 'Z' then some (c.toNat - 'A'.toNat + 10)
    else none
  match v with
  | some n => if n < radix then some n else none
  | none => none

/-- Accumulate the longest leading run of digits; `none` when no digit
has been consumed yet (the NaN case). -/
def parseIntCore (radix : Nat) : List Char → Option Nat → Option Nat
  | [], acc => acc
  | c :: rest, acc =>
      match digitVal radix c with
      | some d => parseIntCore radix rest (some ((acc.getD 0) * radix + d))
      | none => acc

/-- ASCII whitespace skipped by `parseInt` (the JS set also has Unicode
spaces, irrelevant to the ids appearing here). -/
def isJsWhitespace (c : Char) : Bool :=
  c = ' ' ∨ c = '\t' ∨ c = '\n' ∨ c = '\r'

/-- JS `parseInt(s)` with no radix argument: skip leading whitespace,
optional sign, `0x`/`0X` selects base 16, then the longest prefix of
digits; `none` models `NaN`. -/
def parseIntJS (s : String) : Option Int :=
  let cs := s.toList.dropWhile isJsWhitespace
  let signed : Int × List Char :=
    match cs with
    | '-' :: r => (-1, r)
    | '+' :: r => (1, r)
    | _ => (1, cs)
  let based : Nat × List Char :=
    match signed.2 with
    | '0' :: 'x' :: r => (16, r)
    | '0' :: 'X' :: r => (16, r)
    | _ => (10, signed.2)
  match parseIntCore based.1 based.2 none with
  | some n => some (signed.1 * n)
  | none => none

/-- JS strict equality `===` between two numbers where `none` models
`NaN`: `NaN` compares unequal to everything, itself included. -/
def jsNumEq : Option Int → Option Int → Bool
  | some a, some b => a == b
  | _, _ => false

/-! ## View-model derivation -/

/-- ProductDetailPage:
`productImages.find(img => img.is_primary) || productImages[0]` —
first primary image, else the first image, else `undefined`. -/
def primaryImage (images : List Image) : Option Image :=
  match images.find? Image.is_primary with
  | some img => some img
  | none => images.head?

/-- ProductDetailPage hero `src`:
`primaryImage?.image_url || '/placeholder.svg'` (an empty url is falsy
and also falls back to the placeholder). -/
def detailHeroImageUrl (p : Product) : String :=
  match primaryImage p.images with
  | some img => if img.image_url = "" then "/placeholder.svg" else img.image_url
  | none => "/placeholder.svg"

/-- ProductsPage card / BestSelling card image:
`product.images?.[0]?.image_url || '/placeholder.svg'` — always the
FIRST image in collection order, `is_primary` is not consulted. -/
def cardImageUrl (p : Product) : String :=
  match p.images.head? with
  | some img => if img.image_url = "" then "/placeholder.svg" else img.image_url
  | none => "/placeholder.svg"

/-- Insertion-order deduplication against a `seen` accumulator. -/
def dedupFirstAux {α : Type} [DecidableEq α] (seen : List α) : List α → List α
  | [] => []
  | a :: l => if a ∈ seen then dedupFirstAux seen l else a :: dedupFirstAux (a :: seen) l

/-- Insertion-order deduplication, keeping the first occurrence — the
behaviour of spreading a JS `Set` built from primitive values. -/
def dedupFirst {α : Type} [DecidableEq α] (l : List α) : List α :=
  dedupFirstAux [] l

/-- ProductDetailPage size selector options:
`[...new Set(product.variants.map(v => v.size).filter(Boolean))]`.
`filter(Boolean)` drops null and empty labels; the `Set` holds strings,
so the spread deduplicates in first-seen order. -/
def sizeFacets (p : Product) : List String :=
  dedupFirst ((p.variants.map Variant.size).filterMap fun o =>
    match o with
    | some s => if s = "" then none else some s
    | none => none)

/-- ProductDetailPage colour swatches:
`[...new Set(product.variants.map(v => ({name: v.color_name, code: v.color_code})).filter(c => c.name))]`.
Each call of the `map` callback creates a FRESH object and a JS `Set`
compares objects by reference (SameValueZero), so the `Set` spread is
the identity on this list: no deduplication happens.  The model is
therefore the mapped-and-filtered list itself. -/
def colorFacets (p : Product) : List (Option String × Option String) :=
  (p.variants.map fun v => (v.color_name, v.color_code)).filter fun c => strTruthy c.1

/-- BestSelling card colours:
`product.variants?.filter(v => v.color_code).map(v => ({name: v.color_name || 'Color', color: v.color_code || '#000000'}))`
(the `|| [...]` default never fires: `variants` is a non-null array and
even an empty array is truthy).  No deduplication. -/
def bestSellingColors (p : Product) : List (String × String) :=
  (p.variants.filter fun v => strTruthy v.color_code).map fun v =>
    ((match v.color_name with
      | some s => if s = "" then "Color" else s
      | none => "Color"),
     (match v.color_code with
      | some s => if s = "" then "#000000" else s
      | none => "#000000"))

/-- BestSelling card sizes:
`product.variants?.filter(v => v.size).map(v => v.size!).filter(Boolean)`.
No deduplication. -/
def bestSellingSizes (p : Product) : List String :=
  (((p.variants.filter fun v => strTruthy v.size).map fun v => v.size.getD "").filter
    fun s => !(s = ""))

/-! ## BestSelling product lookup by numeric card id -/

/-- `bestSellingProducts.find(p => parseInt(p.id) === productId)` — the
card id handed to the handlers is a JS number (`none` = `NaN`). -/
def bestSellingLookup (l : List Product) (productId : Option Int) : Option Product :=
  l.find? fun p => jsNumEq (parseIntJS p.id) productId

/-- Outcome of BestSelling's `handleQuickView`. -/
inductive QuickViewAction where
  | callParent (productId : String)
  | navigate (url : String)
  | nothing
deriving DecidableEq

/-- BestSelling `handleQuickView`: look the product up by
`parseInt(p.id) === productId`; call the parent callback when provided,
else navigate; with no product found, do nothing. -/
def handleQuickView (hasParentQuickView : Bool) (l : List Product)
    (productId : Option Int) : QuickViewAction :=
  match bestSellingLookup l productId with
  | some product =>
      if hasParentQuickView then .callParent product.id
      else .navigate ("/all-products?product=" ++ product.id)
  | none => .nothing

/-- Outcome of BestSelling's `handleAddToCart`. -/
inductive CartAction where
  | parentAdd (productId : String)
  | loginRequired
  | dbAdd (productId : String) (variantId : Option String)
  | nothing
deriving DecidableEq

/-- BestSelling `handleAddToCart`: look the product up by
`parseInt(p.id) === productId` and return on a miss; else delegate to
the parent callback, demand login, or add the first purchasable
variant (`firstVariant?.id || null`) to the database cart. -/
def handleAddToCart (hasParentAddToCart : Bool) (loggedIn : Bool)
    (l : List Product) (productId : Option Int) : CartAction :=
  match bestSellingLookup l productId with
  | none => .nothing
  | some product =>
      if hasParentAddToCart then .parentAdd product.id
      else if !loggedIn then .loginRequired
      else
        .dbAdd product.id
          (match product.variants.find? (fun v => v.is_active && 0 < v.stock_quantity) with
           | some v => if v.id = "" then none else some v.id
           | none => none)

/-! ## Product repository (useProducts)

Each accessor performs one backend query and catches every failure.  The
backend outcome is passed in as an `Except String _` value: `Except.ok`
carries the rows (`Option` because the client's `data` may be `null`,
handled by `data || []`), `Except.error` is any thrown backend error.
-/

/-- `getProductBySlug` / `getProductById` error handling: `.single()`
either yields a row or throws (also for zero rows), and the catch block
returns `null`. -/
def singleRowAccessor (resp : Except String Product) : Option Product :=
  match resp with
  | .ok data => some data
  | .error _ => none

/-- `getProductBySlug`: returns the row or `null` on any failure. -/
def getProductBySlug (resp : Except String Product) : Option Product :=
  singleRowAccessor resp

/-- `getProductById`: returns the row or `null` on any failure. -/
def getProductById (resp : Except String Product) : Option Product :=
  singleRowAccessor resp

/-- List-valued accessor error handling: `return data || []` on success,
`return []` from the catch block. -/
def listAccessor (resp : Except String (Option (List Product))) : List Product :=
  match resp with
  | .ok data => data.getD []
  | .error _ => []

/-- `getProductsByCategory`: rows or `[]` on any failure. -/
def getProductsByCategory (resp : Except String (Option (List Product))) : List Product :=
  listAccessor resp

/-- `getHotSaleProducts`: rows or `[]` on any failure. -/
def getHotSaleProducts (resp : Except String (Option (List Product))) : List Product :=
  listAccessor resp

/-- `getAllProducts`: rows or `[]` on any failure. -/
def getAllProducts (resp : Except String (Option (List Product))) : List Product :=
  listAccessor resp

/-- `getRelatedProducts`: rows or `[]` on any failure. -/
def getRelatedProducts (resp : Except String (Option (List Product))) : List Product :=
  listAccessor resp

/-- `getRecommendedProducts`: rows or `[]` on any failure. -/
def getRecommendedProducts (resp : Except String (Option (List Product))) : List Product :=
  listAccessor resp

/-- Descending-rating comparison used to model `order("rating",
{ascending: false})`. -/
def RatingGE (a b : Product) : Prop := b.rating ≤ a.rating

instance : DecidableRel RatingGE :=
  fun a b => inferInstanceAs (Decidable (b.rating ≤ a.rating))

instance : IsTotal Product RatingGE :=
  ⟨fun a b => le_total b.rating a.rating⟩

instance : IsTrans Product RatingGE :=
  ⟨fun _ _ _ hab hbc => le_trans hbc hab⟩

/-- Server-side semantics of the `getRecommendedProducts` query chain:
`eq(is_active, true)`, `or(is_hot_sale.eq.true, rating.gte.4)`,
`order(rating, desc)`, `limit(limit)`.  SQL applies the row filter, then
ORDER BY, then LIMIT (the builder-call order is immaterial). -/
def recommendedQuery (table : List Product) (limit : Nat) : List Product :=
  ((table.filter fun p => p.is_active && (p.is_hot_sale || 4 ≤ p.rating)).insertionSort
    RatingGE).take limit

/-! ## fetchProducts and the hardcoded mock catalog

Two copies of `useProducts` ship in the repository.  The copy in
`hooks/useProducts` falls back to three hardcoded sample products when
the backend fails; the duplicate copy bundled after the app entry in
`client/main.tsx` has no fallback and merely records the error message.
`new Date().toISOString()` is nondeterministic, so the timestamp is a
parameter `now`.
-/

/-- The `mockProducts` array of the fallback branch of `fetchProducts`
in `hooks/useProducts` (part_000). -/
def mockProducts (now : String) : List Product :=
  [{ id := "1",
     name := "Men's Round Neck T-Shirt - Premium Cotton",
     description := some "Premium quality round neck t-shirt made from 100% cotton",
     category_id := some "1",
     subcategory := some "Round Neck T-Shirts",
     price := 399,
     original_price := some 499,
     sku := some "MEN-RN-TSH-001",
     slug := "mens-round-neck-tshirt-premium",
     is_active := true,
     is_hot_sale := true,
     rating := 5,
     review_count := 45,
     created_at := now,
     updated_at := now,
     category := some { name := "Men", slug := "men" },
     images := [{ id := "1", image_url := "/placeholder.svg",
                  alt_text := some "Round Neck T-Shirt", is_primary := true,
                  sort_order := 1 }],
     variants := [{ id := "1", size := some "M", color_name := some "Black",
                    color_code := some "#000000", stock_quantity := 50,
                    price_adjustment := 0, is_active := true }] },
   { id := "2",
     name := "Women's 3/4 Leggings - Comfort Fit",
     description := some "Comfortable 3/4 length leggings perfect for workouts and casual wear",
     category_id := some "2",
     subcategory := some "3/4 Leggings",
     price := 449,
     original_price := some 549,
     sku := some "WOM-34-LEG-001",
     slug := "womens-3-4-leggings-comfort",
     is_active := true,
     is_hot_sale := true,
     rating := 4,
     review_count := 28,
     created_at := now,
     updated_at := now,
     category := some { name := "Women", slug := "women" },
     images := [{ id := "2", image_url := "/placeholder.svg",
                  alt_text := some "3/4 Leggings", is_primary := true,
                  sort_order := 1 }],
     variants := [{ id := "2", size := some "M", color_name := some "Navy",
                    color_code := some "#000080", stock_quantity := 30,
                    price_adjustment := 0, is_active := true }] },
   { id := "3",
     name := "Men's V-Neck T-Shirt - Classic Style",
     description := some "Stylish V-neck t-shirt crafted from premium cotton blend",
     category_id := some "1",
     subcategory := some "V-Neck T-Shirts",
     price := 449,
     original_price := some 549,
     sku := some "MEN-VN-TSH-002",
     slug := "mens-v-neck-tshirt-classic",
     is_active := true,
     is_hot_sale := false,
     rating := 4,
     review_count := 32,
     created_at := now,
     updated_at := now,
     category := some { name := "Men", slug := "men" },
     images := [{ id := "3", image_url := "/placeholder.svg",
                  alt_text := some "V-Neck T-Shirt", is_primary := true,
                  sort_order := 1 }],
     variants := [{ id := "3", size := some "L", color_name := some "Purple",
                    color_code := some "#7C3AED", stock_quantity := 25,
                    price_adjustment := 0, is_active := true }] }]

/-- The `useState` triple held by `useProducts`. -/
structure ProductsState where
  products : List Product
  loading : Bool
  error : Option String
deriving DecidableEq

/-- `fetchProducts` of `hooks/useProducts` (part_000): on success store
`data || []` and clear the error; on any failure record the message and
fall back to `mockProducts`; `finally` clears `loading`.  The function
is total — no failure escapes to the caller. -/
def fetchProducts (resp : Except String (Option (List Product))) (now : String)
    (s : ProductsState) : ProductsState :=
  match resp with
  | .ok data => { s with products := data.getD [], error := none, loading := false }
  | .error e => { s with error := some e, products := mockProducts now, loading := false }

/-- `fetchProducts` of the duplicate `useProducts` in `client/main.tsx`:
on success store `data || []`; on failure only record the message — the
`products` state is left untouched and there is no mock fallback. -/
def fetchProductsClient (resp : Except String (Option (List Product)))
    (s : ProductsState) : ProductsState :=
  match resp with
  | .ok data => { s with products := data.getD [], loading := false }
  | .error e => { s with error := some e, loading := false }

/-- Initial `useProducts` state: `products = []`, `loading = true`,
`error = null`. -/
def initialState : ProductsState :=
  { products := [], loading := true, error := none }

/-! ## Concrete sample rows for scenarios, counterexamples and witnesses -/

/-- A neutral active product; concrete rows below override fields. -/
def baseProduct : Product :=
  { id := "p0", name := "Item", description := none, category_id := none,
    subcategory := none, price := 100, original_price := none, sku := none,
    slug := "item", is_active := true, is_hot_sale := false, rating := 0,
    review_count := 0, created_at := "", updated_at := "", category := none,
    images := [], variants := [] }

/-- Product whose name and description avoid the letters of "all". -/
def poloProduct : Product :=
  { baseProduct with id := "p1", name := "Polo T-Shirt",
                     description := some "Cotton knit top" }

/-- Product with a null description whose name misses most tokens. -/
def nightDress : Product :=
  { baseProduct with id := "p2", name := "Night Dress", description := none }

/-- Two variants sharing one colour name/code and one size label. -/
def dupColorProduct : Product :=
  { baseProduct with
      id := "p3",
      variants :=
        [{ id := "v1", size := some "M", color_name := some "Black",
           color_code := some "#000000", stock_quantity := 5,
           price_adjustment := 0, is_active := true },
         { id := "v2", size := some "M", color_name := some "Black",
           color_code := some "#000000", stock_quantity := 8,
           price_adjustment := 0, is_active := true }] }

/-- A non-primary image sitting in front of the primary one. -/
def imgFirstNonPrimary : Image :=
  { id := "i1", image_url := "/a.jpg", alt_text := none, is_primary := false,
    sort_order := 1 }

/-- The primary image, second in collection order. -/
def imgSecondPrimary : Image :=
  { id := "i2", image_url := "/b.jpg", alt_text := none, is_primary := true,
    sort_order := 2 }

/-- Product whose primary image is NOT first in collection order. -/
def twoImageProduct : Product :=
  { baseProduct with id := "p4", images := [imgFirstNonPrimary, imgSecondPrimary] }

/-- Product whose only image is primary but has an empty url. -/
def emptyUrlPrimaryProduct : Product :=
  { baseProduct with
      id := "p5",
      images := [{ id := "i3", image_url := "", alt_text := none,
                   is_primary := true, sort_order := 1 }] }

/-- Recommended-scenario catalog: hot sale with rating 5. -/
def recHot5 : Product :=
  { baseProduct with id := "r1", name := "Hot Five", is_hot_sale := true, rating := 5 }

/-- Recommended-scenario catalog: plain product with rating 3. -/
def recPlain3 : Product :=
  { baseProduct with id := "r2", name := "Plain Three", rating := 3 }

/-- Recommended-scenario catalog: plain product with rating 4. -/
def recPlain4 : Product :=
  { baseProduct with id := "r3", name := "Plain Four", rating := 4 }

/-- The three-product catalog of the recommended scenario. -/
def recCatalog : List Product := [recHot5, recPlain3, recPlain4]

/-- Product with the purely numeric id `"7"`. -/
def prodSeven : Product :=
  { baseProduct with id := "7", name := "Seven" }

/-- A distinct product whose id `"7x"` parses to the same integer. -/
def prodSevenX : Product :=
  { baseProduct with id := "7x", name := "Seven Ex" }

/-! ## Helper lemmas -/

/-- `NaN` strict-compares unequal to every number. -/
theorem jsNumEq_none_right (x : Option Int) : jsNumEq x none = false := by
  cases x <;> rfl

/-- Looking a product up by the card id `NaN` never succeeds. -/
theorem bestSellingLookup_nan (l : List Product) : bestSellingLookup l none = none := by
  unfold bestSellingLookup
  exact List.find?_eq_none.mpr fun p _ => by simp [jsNumEq_none_right]

/-! ## Claims -/

/-- C1 (counterexample): the claim as stated is false for the duplicate
`useProducts` copy bundled in `client/main.tsx`, which the claim also
cites: on a backend failure its `fetchProducts` only records the error
message, so the products state stays at its previous value (the initial
`[]`), not the 3-item sample set with ids "1", "2", "3". -/
theorem C1_counterexample :
    (fetchProductsClient (.error "Failed to fetch") initialState).products = [] ∧
    (fetchProductsClient (.error "Failed to fetch") initialState).products.map Product.id ≠
      ["1", "2", "3"] :=
  ⟨rfl, by decide⟩

/-- C1 (amended): in `hooks/useProducts` every backend failure during
`fetchProducts` sets the products state to exactly the hardcoded 3-item
mock set with ids "1", "2", "3", recording the error message instead of
propagating it (the embedding is a total function on `Except.error`);
in the duplicate copy in `client/main.tsx` the failure is likewise
swallowed (error recorded, nothing thrown) but the products state is
left unchanged and no sample set appears. -/
theorem C1_mock_fallback (e now : String) (s : ProductsState) :
    (fetchProducts (.error e) now s).products = mockProducts now ∧
    (fetchProducts (.error e) now s).products.map Product.id = ["1", "2", "3"] ∧
    (fetchProducts (.error e) now s).error = some e ∧
    (fetchProductsClient (.error e) s).products = s.products ∧
    (fetchProductsClient (.error e) s).error = some e :=
  ⟨rfl, rfl, rfl, rfl, rfl⟩

/-- C2 (code bug): the URL-driven subcategory filter treats a null
description as non-matching via the optional chain, and is exactly the
subsequence selected by the name-or-description predicate; but
`handleFilterClick` reads `product.description.toLowerCase()` without
the optional chain, so a product whose name does not contain the token
and whose description is null makes the filter callback throw a
TypeError (modelled by `none`) — contradicting "never causes a
failure". -/
theorem C2_null_description_throws :
    filterClick "Polo" [nightDress] = none ∧
    (∀ (tok : String) (p : Product), p.description = none →
        urlSubcatPred tok p = jsIncludes (jsToLower p.name) (jsToLower tok)) ∧
    (∀ (tok : String) (l : List Product), tok ≠ "" → jsToLower tok ≠ "all" →
        filterByUrlSubcategory (some tok) l = l.filter (urlSubcatPred tok)) := by
  refine ⟨by decide, ?_, ?_⟩
  · intro tok p h
    simp [urlSubcatPred, h]
  · intro tok l h1 h2
    have h3 : tok ≠ "all" := fun h => h2 (by subst h; decide)
    simp [filterByUrlSubcategory, h1, h3]

/-- C2 witness: the null-description conjunct applied to the concrete
product `nightDress`. -/
theorem C2_witness :
    urlSubcatPred "Polo" nightDress =
      jsIncludes (jsToLower nightDress.name) (jsToLower "Polo") :=
  C2_null_description_throws.2.1 "Polo" nightDress rfl

/-- C3 (code bug): on a product with two variants sharing colour name
"Black" (and size "M"), the ProductDetailPage size facets are correctly
deduplicated, but its colour facets keep both entries — the `new Set`
is built from freshly allocated objects and compares by reference, so
the spread deduplicates nothing; BestSelling's colour and size lists
have no deduplication at all.  This contradicts the claim that the
derived colour and size facets never contain duplicates. -/
theorem C3_facet_duplicates :
    sizeFacets dupColorProduct = ["M"] ∧
    colorFacets dupColorProduct =
      [(some "Black", some "#000000"), (some "Black", some "#000000")] ∧
    ¬ ((colorFacets dupColorProduct).map Prod.fst).Nodup ∧
    bestSellingColors dupColorProduct = [("Black", "#000000"), ("Black", "#000000")] ∧
    bestSellingSizes dupColorProduct = ["M", "M"] :=
  ⟨by decide, by decide, by decide, by decide, by decide⟩

/-- C4 (counterexample): `twoImageProduct` has a primary image (url
"/b.jpg") sitting second in the collection; the ProductsPage /
BestSelling card image prop — one of the representative-image selection
sites the claim covers — picks the first image "/a.jpg" instead.
Moreover a primary image whose url is the empty string is falsy, so
even the ProductDetailPage selection replaces it with the
placeholder. -/
theorem C4_counterexample :
    twoImageProduct.images.any Image.is_primary = true ∧
    (primaryImage twoImageProduct.images).map Image.image_url = some "/b.jpg" ∧
    cardImageUrl twoImageProduct = "/a.jpg" ∧
    (primaryImage emptyUrlPrimaryProduct.images).map Image.image_url = some "" ∧
    detailHeroImageUrl emptyUrlPrimaryProduct = "/placeholder.svg" :=
  ⟨by decide, by decide, by decide, by decide, by decide⟩

/-- C4 (amended): the ProductDetailPage selection returns the first
`is_primary` image's url regardless of its position (when that url is
non-empty), else the first image's url (when non-empty), else the
placeholder "/placeholder.svg"; the listing/BestSelling card prop
instead always uses the first image in collection order (when its url
is non-empty), else the placeholder. -/
theorem C4_image_selection (p : Product) :
    (∀ img : Image, p.images.find? Image.is_primary = some img → img.image_url ≠ "" →
        detailHeroImageUrl p = img.image_url) ∧
    (p.images.find? Image.is_primary = none →
        ∀ img : Image, p.images.head? = some img → img.image_url ≠ "" →
        detailHeroImageUrl p = img.image_url) ∧
    (p.images = [] → detailHeroImageUrl p = "/placeholder.svg") ∧
    (∀ img : Image, p.images.head? = some img → img.image_url ≠ "" →
        cardImageUrl p = img.image_url) ∧
    (p.images = [] → cardImageUrl p = "/placeholder.svg") := by
  refine ⟨?_, ?_, ?_, ?_, ?_⟩
  · intro img h hne
    simp [detailHeroImageUrl, primaryImage, h, hne]
  · intro h img hh hne
    simp [detailHeroImageUrl, primaryImage, h, hh, hne]
  · intro h
    simp [detailHeroImageUrl, primaryImage, h]
  · intro img hh hne
    simp [cardImageUrl, hh, hne]
  · intro h
    simp [cardImageUrl, h]

/-- C4 witness: the amended first-primary conjunct applied to
`twoImageProduct`, whose primary image is second in order. -/
theorem C4_witness : detailHeroImageUrl twoImageProduct = "/b.jpg" :=
  (C4_image_selection twoImageProduct).1 imgSecondPrimary rfl (by decide)

/-- C5 (counterexample): the token "ALL" equals "all" only
case-insensitively, yet both filter paths treat it as an ordinary
substring token: on a product whose name and description avoid the
letters "all" the result is `[]`, not a copy of the input list. -/
theorem C5_counterexample :
    filterByUrlSubcategory (some "ALL") [poloProduct] = [] ∧
    filterClick "ALL" [poloProduct] = some [] ∧
    ([] : List Product) ≠ [poloProduct] :=
  ⟨by decide, by decide, by decide⟩

/-- C5 (amended): an empty token, the exact token "all" on the URL
path, and the exact tokens "All"/"all" on the filter-click path all
yield the input list itself — equal contents and order, but the code
passes the same array through rather than building a fresh collection;
any other casing such as "ALL" is treated as a substring token.  The
filters are pure — the input list is never mutated. -/
theorem C5_all_token_identity (l : List Product) :
    filterByUrlSubcategory none l = l ∧
    filterByUrlSubcategory (some "") l = l ∧
    filterByUrlSubcategory (some "all") l = l ∧
    filterClick "All" l = some l ∧
    filterClick "all" l = some l ∧
    filterByUrlSubcategory (some "ALL") l = l.filter (urlSubcatPred "ALL") := by
  refine ⟨rfl, ?_, ?_, ?_, ?_, ?_⟩
  · simp [filterByUrlSubcategory]
  · simp [filterByUrlSubcategory]
  · simp [filterClick]
  · simp [filterClick]
  · simp [filterByUrlSubcategory]

/-- C6: `getRecommendedProducts` — modelled as the SQL semantics of its
query chain (row filter, ORDER BY rating DESC, LIMIT) fed through the
accessor's success path — returns only active products that are hot
sale or rated at least 4, sorted by descending rating, capped at
`limit`; and on the three-product scenario catalog, `limit = 2` returns
exactly the hot rating-5 product followed by the plain rating-4 one. -/
theorem C6_recommended_products (table : List Product) (limit : Nat) :
    (∀ p ∈ getRecommendedProducts (.ok (some (recommendedQuery table limit))),
        p.is_active = true ∧ (p.is_hot_sale = true ∨ 4 ≤ p.rating)) ∧
    List.Sorted RatingGE
      (getRecommendedProducts (.ok (some (recommendedQuery table limit)))) ∧
    (getRecommendedProducts (.ok (some (recommendedQuery table limit)))).length ≤ limit ∧
    getRecommendedProducts (.ok (some (recommendedQuery recCatalog 2))) =
      [recHot5, recPlain4] := by
  refine ⟨?_, ?_, ?_, by decide⟩
  · intro p hp
    have h1 : p ∈ (table.filter fun q =>
        q.is_active && (q.is_hot_sale || 4 ≤ q.rating)) :=
      (List.perm_insertionSort RatingGE _).mem_iff.mp (List.take_subset _ _ hp)
    have h2 := List.of_mem_filter h1
    simpa using h2
  · exact List.Pairwise.sublist (List.take_sublist _ _)
      (List.sorted_insertionSort RatingGE _)
  · exact List.length_take_le _ _

/-- C6 witness: the filter conjunct applied to the hot-sale product of
the scenario catalog. -/
theorem C6_witness :
    recHot5.is_active = true ∧ (recHot5.is_hot_sale = true ∨ 4 ≤ recHot5.rating) :=
  (C6_recommended_products recCatalog 2).1 recHot5 (by decide)

/-- C7 (counterexample): "toString" is not a key of the mapping table,
yet `getCategorySlug "toString"` does not return the input string
unchanged — the object-literal lookup finds the inherited, truthy
`Object.prototype.toString`, so `|| category` never fires and the
source returns that function instead of a string. -/
theorem C7_counterexample :
    "toString" ∉ categoryMap.map Prod.fst ∧
    getCategorySlug "toString" = SlugResult.protoMember "toString" ∧
    SlugResult.protoMember "toString" ≠ SlugResult.str "toString" :=
  ⟨by decide, by decide, by decide⟩

/-- C7 (amended): `getCategorySlug` maps every key of the table to its
documented slug; every string that is neither a table key nor an
inherited `Object.prototype` member name is returned unchanged; for a
non-key that IS an inherited member name ("toString", "valueOf",
"constructor", "hasOwnProperty", "__proto__", ...), the lookup yields
that truthy inherited member, so the function returns it rather than
the input string. -/
theorem C7_category_slug_mapping :
    (∀ k v : String, (k, v) ∈ categoryMap → getCategorySlug k = .str v) ∧
    (∀ s : String, s ∉ categoryMap.map Prod.fst → s ∉ objectProtoKeys →
        getCategorySlug s = .str s) ∧
    (∀ s : String, s ∉ categoryMap.map Prod.fst → s ∈ objectProtoKeys →
        getCategorySlug s = .protoMember s) := by
  have lookupNone : ∀ s : String, s ∉ categoryMap.map Prod.fst →
      categoryMap.lookup s = none := by
    intro s h
    simp [categoryMap] at h
    push_neg at h
    obtain ⟨h1, h2, h3, h4, h5, h6, h7⟩ := h
    have e : ∀ k : String, s ≠ k → (s == k) = false := fun k hk =>
      beq_eq_false_iff_ne.mpr hk
    simp [categoryMap, List.lookup, e _ h1, e _ h2, e _ h3, e _ h4, e _ h5,
      e _ h6, e _ h7]
  refine ⟨?_, ?_, ?_⟩
  · intro k v h
    fin_cases h <;> decide
  · intro s h hp
    simp [getCategorySlug, jsObjectGet, lookupNone s h, hp]
  · intro s h hp
    simp [getCategorySlug, jsObjectGet, lookupNone s h, hp]

/-- C7 witness: the documented mappings for "men" and "shapewear", the
identity fallback on a plain non-key, and the inherited-member case at
"toString". -/
theorem C7_witness :
    getCategorySlug "men" = SlugResult.str "mens-t-shirts" ∧
    getCategorySlug "shapewear" = SlugResult.str "saree-shapewear" ∧
    getCategorySlug "custom-slug" = SlugResult.str "custom-slug" ∧
    getCategorySlug "valueOf" = SlugResult.protoMember "valueOf" :=
  ⟨C7_category_slug_mapping.1 "men" "mens-t-shirts" (by decide),
   C7_category_slug_mapping.1 "shapewear" "saree-shapewear" (by decide),
   C7_category_slug_mapping.2.1 "custom-slug" (by decide) (by decide),
   C7_category_slug_mapping.2.2 "valueOf" (by decide) (by decide)⟩

/-- C8: every repository accessor other than the fetch-all operation
returns the empty list (list-valued) or null (single-product) on every
backend error; each embedding is a total function of the backend
outcome, so no exception reaches the caller. -/
theorem C8_accessors_swallow_errors (e : String) :
    getProductBySlug (.error e) = none ∧
    getProductById (.error e) = none ∧
    getProductsByCategory (.error e) = [] ∧
    getHotSaleProducts (.error e) = [] ∧
    getAllProducts (.error e) = [] ∧
    getRelatedProducts (.error e) = [] ∧
    getRecommendedProducts (.error e) = [] :=
  ⟨rfl, rfl, rfl, rfl, rfl, rfl, rfl⟩

/-- C9: the URL-driven subcategory filter is idempotent — filtering an
already-filtered list by the same token yields the same list, on both
the pass-through branch and the substring branch. -/
theorem C9_filter_idempotent (subcategory : Option String) (l : List Product) :
    filterByUrlSubcategory subcategory (filterByUrlSubcategory subcategory l) =
      filterByUrlSubcategory subcategory l := by
  match subcategory with
  | none => rfl
  | some s =>
    by_cases h : s = "" ∨ s = "all"
    · simp [filterByUrlSubcategory, h]
    · simp [filterByUrlSubcategory, h, List.filter_filter]

/-- C10: BestSelling's handlers look the product up by comparing
`parseInt(product.id)` with the numeric card id under JS strict
equality.  An id that does not parse gives card id NaN, which strict-
compares unequal to everything, so the lookup misses and both handlers
do nothing; and the lookup predicate depends on an id string only
through its parsed value, so ids "7" and "7x" (both parsing to 7) are
indistinguishable — in either list order the lookup for 7 returns the
first of the two. -/
theorem C10_parseInt_lookup :
    (∀ (hasParent : Bool) (l : List Product) (s : String), parseIntJS s = none →
        handleQuickView hasParent l (parseIntJS s) = QuickViewAction.nothing) ∧
    (∀ (hasParent loggedIn : Bool) (l : List Product) (s : String), parseIntJS s = none →
        handleAddToCart hasParent loggedIn l (parseIntJS s) = CartAction.nothing) ∧
    (∀ (a b : Product), parseIntJS a.id = parseIntJS b.id → ∀ productId : Option Int,
        jsNumEq (parseIntJS a.id) productId = jsNumEq (parseIntJS b.id) productId) ∧
    parseIntJS "7" = some 7 ∧ parseIntJS "7x" = some 7 ∧ prodSeven ≠ prodSevenX ∧
    bestSellingLookup [prodSeven, prodSevenX] (some 7) = some prodSeven ∧
    bestSellingLookup [prodSevenX, prodSeven] (some 7) = some prodSevenX := by
  refine ⟨?_, ?_, ?_, by decide, by decide, by decide, by decide, by decide⟩
  · intro hp l s h
    rw [h]
    simp [handleQuickView, bestSellingLookup_nan]
  · intro hp li l s h
    rw [h]
    simp [handleAddToCart, bestSellingLookup_nan]
  · intro a b h pid
    rw [h]

/-- C10 witness: both no-action conjuncts applied to the unparseable id
"abc" over the two-product list. -/
theorem C10_witness :
    handleQuickView true [prodSeven, prodSevenX] (parseIntJS "abc") =
      QuickViewAction.nothing :=
  C10_parseInt_lookup.1 true [prodSeven, prodSevenX] "abc" (by decide)

end Garments
